import Mathlib

/-!
Shallow embedding of QEMU's GlusterFS block driver (block/gluster.c).

The driver's pure logic is transcribed into Lean functions; the external
collaborators (the URI/query-string parser utilities, the libgfapi calls,
the coroutine scheduler) are modelled as inputs: a `URI` record stands for
the result of `uri_parse`/`query_params_parse`, and environment records
(`GlfsEnv`, `AioEnv`, `OpenEnv`, `CreateEnv`) carry the success/failure and
`errno` outcomes of each library call a run performs.
-/

namespace Gluster

/-- The `EIO` error number (5). -/
def eioErr : Int := 5

/-- The `EINVAL` error number (22). -/
def einvalErr : Int := 22

/-- `BDRV_SECTOR_SIZE`: 512-byte sectors. -/
def sectorSize : Nat := 512

/-!
## Location parser: `parse_volume_options` (gluster.c lines 55-78)

`path` is modelled as a list of characters (`NULL` as `none`).
`p = q = path + strspn(path, "/")` is `dropWhile (· = '/')`;
`p += strcspn(p, "/")` is `dropWhile (· ≠ '/')`; the `g_strndup(q, p - q)`
copy of the characters of `q` before `p` is `takeWhile (· ≠ '/')`.
-/

/-- `parse_volume_options`: split a URI path into `(volname, image)` or
return `-EINVAL`. -/
def parse_volume_options (path : Option (List Char)) : Except Int (List Char × List Char) :=
  match path with
  | none => .error (-einvalErr)
  | some cs =>
    if (cs.dropWhile (fun c => c = '/')).dropWhile (fun c => ¬ c = '/') = [] then
      .error (-einvalErr)
    else if ((cs.dropWhile (fun c => c = '/')).dropWhile (fun c => ¬ c = '/')).dropWhile
        (fun c => c = '/') = [] then
      .error (-einvalErr)
    else
      .ok ((cs.dropWhile (fun c => c = '/')).takeWhile (fun c => ¬ c = '/'),
        ((cs.dropWhile (fun c => c = '/')).dropWhile (fun c => ¬ c = '/')).dropWhile
          (fun c => c = '/'))

/-!
## URI parser: `qemu_gluster_parseuri` (gluster.c lines 117-176)

`uri_parse` and `query_params_parse` are external utilities; their result is
modelled directly as the `URI` record (`none` for a failed `uri_parse`).
`port` is the `int` field of the external parser's result, which is `0` when
the URI carries no port.  `query` is the parsed name/value pair list.
-/

/-- Result of the external `uri_parse` + `query_params_parse` utilities. -/
structure URI where
  scheme : Option String
  server : Option String
  port : Int
  path : Option (List Char)
  query : List (String × String)
deriving DecidableEq

/-- `GlusterConf` (gluster.c lines 38-44), as filled in by a successful
`qemu_gluster_parseuri`. -/
structure GlusterConf where
  server : Option String := none
  port : Int := 0
  volname : Option (List Char) := none
  image : Option (List Char) := none
  transport : Option String := none
deriving DecidableEq

/-- `qemu_gluster_parseuri`: fill a `GlusterConf` from a URI or return
`-EINVAL`. -/
def qemu_gluster_parseuri (u : Option URI) : Except Int GlusterConf :=
  match u with
  | none => .error (-einvalErr)
  | some uri =>
    let tr : Option (String × Bool) :=
      match uri.scheme with
      | none => some ("tcp", false)
      | some s =>
        if s = "gluster" then some ("tcp", false)
        else if s = "gluster+tcp" then some ("tcp", false)
        else if s = "gluster+unix" then some ("unix", true)
        else if s = "gluster+rdma" then some ("rdma", false)
        else none
    match tr with
    | none => .error (-einvalErr)
    | some (transport, is_unix) =>
      match parse_volume_options uri.path with
      | .error e => .error e
      | .ok (volname, image) =>
        if uri.query.length > 1 ∨ (is_unix = true ∧ uri.query.length = 0)
            ∨ (is_unix = false ∧ ¬ uri.query.length = 0) then
          .error (-einvalErr)
        else if is_unix then
          if ¬ uri.server = none ∨ ¬ uri.port = 0 then .error (-einvalErr)
          else
            match uri.query with
            | [] => .error (-einvalErr)
            | (n, v) :: _ =>
              if ¬ n = "socket" then .error (-einvalErr)
              else .ok { transport := some transport, server := some v, port := 0,
                         volname := some volname, image := some image }
        else
          .ok { transport := some transport,
                server := some (uri.server.getD "localhost"),
                port := uri.port, volname := some volname, image := some image }

/-!
## AIO bridge (gluster.c lines 23-28, 242-259, 446-478, 505-555, 333-358)

The completion callback `gluster_finish_aiocb` classifies the delivered byte
count against `acb->size`; its classification is the value the submitting
coroutine reads from `acb->ret` after it is resumed.  Each coroutine
operation is modelled as a function from the outcome of its library calls
(`AioEnv`) to an `AioOutcome` recording the fields written into the
`GlusterAIOCB`, whether the coroutine yielded, whether the record was freed,
and the returned result.
-/

/-- The classification `gluster_finish_aiocb` stores into `acb->ret`,
given `acb->size` and the callback's `ret` argument. -/
def gluster_finish_aiocb (size ret : Int) : Int :=
  if ret = 0 ∨ ret = size then 0
  else if ret < 0 then ret
  else -eioErr

/-- Outcomes of the library calls one coroutine I/O operation performs:
the async submission's return value, `errno` after a failed submission,
and the byte count the completion callback later delivers. -/
structure AioEnv where
  submit_ret : Int
  submit_errno : Nat
  async_ret : Int
deriving DecidableEq

/-- Trace of one coroutine I/O operation: the `GlusterAIOCB` fields set at
submission, whether the coroutine yielded, whether the record was freed,
and the operation's return value. -/
structure AioOutcome where
  expected_size : Int
  init_result : Int
  yielded : Bool
  freed : Bool
  ret : Int
deriving DecidableEq

/-- `qemu_gluster_co_rw` (lines 446-478): vectored read (`write = false`)
or write (`write = true`) of `nb_sectors` sectors. -/
def qemu_gluster_co_rw (nb_sectors : Nat) (write : Bool) (env : AioEnv) : AioOutcome :=
  let size : Int := (nb_sectors * sectorSize : Nat)
  let _ := write
  if env.submit_ret < 0 then
    { expected_size := size, init_result := 0, yielded := false, freed := true,
      ret := -(env.submit_errno : Int) }
  else
    { expected_size := size, init_result := 0, yielded := true, freed := true,
      ret := gluster_finish_aiocb size env.async_ret }

/-- `qemu_gluster_co_flush_to_disk` (lines 505-527). -/
def qemu_gluster_co_flush_to_disk (env : AioEnv) : AioOutcome :=
  if env.submit_ret < 0 then
    { expected_size := 0, init_result := 0, yielded := false, freed := true,
      ret := -(env.submit_errno : Int) }
  else
    { expected_size := 0, init_result := 0, yielded := true, freed := true,
      ret := gluster_finish_aiocb 0 env.async_ret }

/-- `qemu_gluster_co_discard` (lines 529-556, CONFIG_GLUSTERFS_DISCARD):
`acb->size` is 0 although a byte range of `nb_sectors` sectors is passed to
`glfs_discard_async`. -/
def qemu_gluster_co_discard (nb_sectors : Nat) (env : AioEnv) : AioOutcome :=
  let _ := nb_sectors * sectorSize
  if env.submit_ret < 0 then
    { expected_size := 0, init_result := 0, yielded := false, freed := true,
      ret := -(env.submit_errno : Int) }
  else
    { expected_size := 0, init_result := 0, yielded := true, freed := true,
      ret := gluster_finish_aiocb 0 env.async_ret }

/-- `qemu_gluster_co_write_zeroes` (lines 333-358, CONFIG_GLUSTERFS_ZEROFILL). -/
def qemu_gluster_co_write_zeroes (nb_sectors : Nat) (env : AioEnv) : AioOutcome :=
  let size : Int := (nb_sectors * sectorSize : Nat)
  if env.submit_ret < 0 then
    { expected_size := size, init_result := 0, yielded := false, freed := true,
      ret := -(env.submit_errno : Int) }
  else
    { expected_size := size, init_result := 0, yielded := true, freed := true,
      ret := gluster_finish_aiocb size env.async_ret }

/-!
## Session bootstrap: `qemu_gluster_init` (gluster.c lines 178-231)

The libgfapi calls are modelled by `GlfsEnv`: each call either succeeds or
fails, and a failing call leaves its error number in `errno`.  `glfs_fini`
may itself change `errno` (modelled by `fini_errno`); the code saves and
restores `errno` around it (lines 224-229).
-/

/-- Outcomes of the libgfapi calls `qemu_gluster_init` performs, plus the
`errno` value `glfs_fini` leaves behind. -/
structure GlfsEnv where
  glfs_new_ok : Bool
  glfs_new_errno : Nat
  set_server_ok : Bool
  set_server_errno : Nat
  set_logging_ok : Bool
  set_logging_errno : Nat
  glfs_init_ok : Bool
  glfs_init_errno : Nat
  fini_errno : Nat
deriving DecidableEq

/-- Result of `qemu_gluster_init`: whether a live volume handle is returned,
the final `errno`, whether `glfs_fini` ran, and whether a diagnostic was
emitted via `errp`. -/
structure InitResult where
  glfs : Bool
  errno : Nat
  fini_called : Bool
  diag : Bool
deriving DecidableEq

/-- `glfs_fini` may clobber `errno`; modelled as setting it to
`env.fini_errno`. -/
def glfs_fini_errno (env : GlfsEnv) (e : Nat) : Nat :=
  let _ := e
  env.fini_errno

/-- The `out:` epilogue of `qemu_gluster_init` (lines 224-230): when a
volume handle exists, save `errno`, finalize the handle, restore `errno`.
Returns the final `errno` and whether `glfs_fini` ran. -/
def init_out (env : GlfsEnv) (glfs_present : Bool) (e : Nat) : Nat × Bool :=
  if glfs_present then
    let old_errno := e
    let _e1 := glfs_fini_errno env e
    (old_errno, true)
  else (e, false)

/-- `qemu_gluster_init`: parse the URI, create and configure a volume
handle, connect; tear down the partial handle on failure. `e0` is the
incoming `errno`. -/
def qemu_gluster_init (u : Option URI) (env : GlfsEnv) (e0 : Nat) : InitResult :=
  match qemu_gluster_parseuri u with
  | .error r =>
    let e := (-r).toNat
    let (ef, fin) := init_out env false e
    { glfs := false, errno := ef, fini_called := fin, diag := true }
  | .ok _ =>
    if env.glfs_new_ok = false then
      let (ef, fin) := init_out env false env.glfs_new_errno
      { glfs := false, errno := ef, fini_called := fin, diag := false }
    else if env.set_server_ok = false then
      let (ef, fin) := init_out env true env.set_server_errno
      { glfs := false, errno := ef, fini_called := fin, diag := false }
    else if env.set_logging_ok = false then
      let (ef, fin) := init_out env true env.set_logging_errno
      { glfs := false, errno := ef, fini_called := fin, diag := false }
    else if env.glfs_init_ok = false then
      let (ef, fin) := init_out env true env.glfs_init_errno
      { glfs := false, errno := ef, fini_called := fin, diag := true }
    else
      { glfs := true, errno := e0, fini_called := false, diag := false }

/-!
## `qemu_gluster_open` (gluster.c lines 275-330)

The instance state `BDRVGlusterState` holds the volume and file handles;
each is modelled by its status: `absent` (NULL), `live` (acquired), or
`released` (the `out:` failure path closed/finalized it without nulling the
pointer).
-/

/-- Status of a handle stored in the driver instance. -/
inductive HStat where
  | absent
  | live
  | released
deriving DecidableEq

/-- `BDRVGlusterState` (lines 30-33): the per-instance volume and file
handles. -/
structure BDRVGlusterState where
  glfs : HStat
  fd : HStat
deriving DecidableEq

/-- Outcomes of the calls `qemu_gluster_open` performs besides
`qemu_gluster_init`: option absorption and `glfs_open`. -/
structure OpenEnv where
  absorb_ok : Bool
  open_ok : Bool
  open_errno : Nat
deriving DecidableEq

/-- The `out:` epilogue of `qemu_gluster_open` (lines 317-329): on nonzero
`ret`, close the file handle and finalize the volume handle when present. -/
def open_out (ret : Int) (s : BDRVGlusterState) : Int × BDRVGlusterState :=
  if ret = 0 then (ret, s)
  else
    (ret, { fd := if ¬ s.fd = .absent then .released else s.fd,
            glfs := if ¬ s.glfs = .absent then .released else s.glfs })

/-- `qemu_gluster_open`: absorb options, bootstrap a session, open the
image; release everything acquired on failure. -/
def qemu_gluster_open (u : Option URI) (genv : GlfsEnv) (e0 : Nat) (env : OpenEnv) :
    Int × BDRVGlusterState :=
  let s0 : BDRVGlusterState := { glfs := .absent, fd := .absent }
  if env.absorb_ok = false then
    open_out (-einvalErr) s0
  else
    let ir := qemu_gluster_init u genv e0
    if ir.glfs = false then
      open_out (-(ir.errno : Int)) s0
    else if env.open_ok = false then
      open_out (-(env.open_errno : Int)) { glfs := .live, fd := .absent }
    else
      open_out 0 { glfs := .live, fd := .live }

/-!
## `qemu_gluster_create` (gluster.c lines 384-444)

`QEMUOptionParameter` entries are modelled by `CreateOpt`; the option scan
(lines 400-418) by `scanOpts`.  The libgfapi call outcomes are carried by
`CreateEnv`.  `gluster_supports_zerofill` (lines 360-382) is `cfg`, the
CONFIG_GLUSTERFS_ZEROFILL build flag; without it `qemu_gluster_zerofill`
is a stub returning 0.
-/

/-- `gluster_supports_zerofill` under build flag `cfg`
(CONFIG_GLUSTERFS_ZEROFILL). -/
def gluster_supports_zerofill (cfg : Bool) : Bool := cfg

/-- One `QEMUOptionParameter` entry: `size` carries `value.n` (bytes),
`prealloc` carries `value.s` (`none` for NULL), `other` any other option. -/
inductive CreateOpt where
  | size (n : Nat)
  | prealloc (v : Option String)
  | other
deriving DecidableEq

/-- The option-scan loop of `qemu_gluster_create` (lines 400-418), folding
`total_size` (in sectors) and the `prealloc` flag; `.error` is the
invalid-preallocation-mode path (diagnostic plus `-EINVAL`). -/
def scanOpts (cfg : Bool) : List CreateOpt → Nat → Bool → Except Unit (Nat × Bool)
  | [], t, p => .ok (t, p)
  | .size n :: rest, _, p => scanOpts cfg rest (n / sectorSize) p
  | .prealloc v :: rest, t, _ =>
    match v with
    | none => scanOpts cfg rest t false
    | some s =>
      if s = "off" then scanOpts cfg rest t false
      else if s = "full" ∧ gluster_supports_zerofill cfg = true then scanOpts cfg rest t true
      else .error ()
  | .other :: rest, t, p => scanOpts cfg rest t p

/-- Outcomes of the libgfapi calls `qemu_gluster_create` performs. -/
structure CreateEnv where
  init_ok : Bool
  creat_ok : Bool
  creat_errno : Nat
  ftruncate_ok : Bool
  ftruncate_errno : Nat
  zerofill_ok : Bool
  zerofill_errno : Nat
  close_ok : Bool
  close_errno : Nat
deriving DecidableEq

/-- Trace of one `qemu_gluster_create` run: return value, whether the
invalid-preallocation diagnostic was emitted, the byte size passed to
`glfs_ftruncate`, the `(offset, size)` passed to `qemu_gluster_zerofill`,
and whether the file handle was closed and the volume handle finalized. -/
structure CreateResult where
  ret : Int
  diag : Bool
  truncate_arg : Option Nat
  zerofill_arg : Option (Nat × Nat)
  fd_closed : Bool
  glfs_finied : Bool
deriving DecidableEq

/-- `qemu_gluster_create`: bootstrap, scan options, create the file,
truncate it to `total_size` sectors, optionally zero-fill, close the file,
finalize the volume handle. -/
def qemu_gluster_create (cfg : Bool) (env : CreateEnv) (opts : List CreateOpt) :
    CreateResult :=
  if env.init_ok = false then
    { ret := -einvalErr, diag := false, truncate_arg := none, zerofill_arg := none,
      fd_closed := false, glfs_finied := false }
  else
    match scanOpts cfg opts 0 false with
    | .error _ =>
      { ret := -einvalErr, diag := true, truncate_arg := none, zerofill_arg := none,
        fd_closed := false, glfs_finied := true }
    | .ok (total_size, prealloc) =>
      if env.creat_ok = false then
        { ret := -(env.creat_errno : Int), diag := false, truncate_arg := none,
          zerofill_arg := none, fd_closed := false, glfs_finied := true }
      else
        let r1 : Int :=
          if env.ftruncate_ok then
            if prealloc then
              if (if gluster_supports_zerofill cfg then env.zerofill_ok else true) then 0
              else -(env.zerofill_errno : Int)
            else 0
          else -(env.ftruncate_errno : Int)
        let r2 : Int := if env.close_ok then r1 else -(env.close_errno : Int)
        { ret := r2, diag := false, truncate_arg := some (total_size * sectorSize),
          zerofill_arg :=
            if env.ftruncate_ok && prealloc then some (0, total_size * sectorSize) else none,
          fd_closed := true, glfs_finied := true }

/-- Spec-side definition for claim C2: the (negative) error number of the
first failing step of a `qemu_gluster_create` run (session bootstrap,
option scan, `glfs_creat`, `glfs_ftruncate`, zero-fill), 0 when none of
those steps fails. -/
def createFirstError (cfg : Bool) (env : CreateEnv) (opts : List CreateOpt) : Int :=
  if env.init_ok = false then -einvalErr
  else
    match scanOpts cfg opts 0 false with
    | .error _ => -einvalErr
    | .ok (_, prealloc) =>
      if env.creat_ok = false then -(env.creat_errno : Int)
      else if env.ftruncate_ok = false then -(env.ftruncate_errno : Int)
      else if prealloc = true ∧ cfg = true ∧ env.zerofill_ok = false then
        -(env.zerofill_errno : Int)
      else 0

/-- After dropping leading slashes, a non-empty remainder starts with a
non-slash character, so the slash-free run taken from it is non-empty. -/
theorem takeWhile_dropWhile_slash_ne_nil (l : List Char)
    (h : l.dropWhile (fun c => c = '/') ≠ []) :
    (l.dropWhile (fun c => c = '/')).takeWhile (fun c => ¬ c = '/') ≠ [] := by
  induction l with
  | nil => simp at h
  | cons a t ih =>
    by_cases ha : a = '/'
    · simpa [List.dropWhile, ha] using ih (by simpa [List.dropWhile, ha] using h)
    · simp [List.dropWhile, List.takeWhile, ha]

/-!
## Theorems
-/

/-- The classification at a glance, with a nonnegative expected size. -/
theorem gluster_finish_aiocb_cases (s r : Int) (hs : 0 ≤ s) :
    ((r = 0 ∨ r = s) → gluster_finish_aiocb s r = 0)
    ∧ (r < 0 → gluster_finish_aiocb s r = r)
    ∧ (0 < r → ¬ r = s → gluster_finish_aiocb s r = -eioErr) := by
  refine ⟨fun h => ?_, fun h => ?_, fun h1 h2 => ?_⟩
  · rcases h with h | h <;> simp [gluster_finish_aiocb, h]
  · have h1 : ¬ (r = 0 ∨ r = s) := by omega
    simp [gluster_finish_aiocb, h1, h]
  · have h3 : ¬ (r = 0 ∨ r = s) := by omega
    have h4 : ¬ r < 0 := by omega
    simp [gluster_finish_aiocb, h3, h4]

/-- Claim C1: for every completion callback invocation on a completion
record with expected size `s` (here the record built by
`qemu_gluster_co_rw`, so `s = nb_sectors * 512 ≥ 0`): a delivered byte
count of 0 or `s` resumes the coroutine with result 0, a negative byte
count resumes it with that same negative value, and a byte count strictly
between 0 and `s` resumes it with `-EIO`. -/
theorem C1_completion_classification (s r : Int) (env : AioEnv) (nb : Nat) (wr : Bool)
    (hs : 0 ≤ s) (hsub : 0 ≤ env.submit_ret) :
    ((r = 0 ∨ r = s) → gluster_finish_aiocb s r = 0)
    ∧ (r < 0 → gluster_finish_aiocb s r = r)
    ∧ (0 < r → r < s → gluster_finish_aiocb s r = -eioErr)
    ∧ (qemu_gluster_co_rw nb wr env).ret
        = gluster_finish_aiocb ((nb * sectorSize : Nat) : Int) env.async_ret := by
  have hns : ¬ env.submit_ret < 0 := not_lt.2 hsub
  have hc := gluster_finish_aiocb_cases s r hs
  refine ⟨hc.1, hc.2.1, fun h1 h2 => hc.2.2 h1 (by omega), ?_⟩
  simp [qemu_gluster_co_rw, hns]

/-- Witness for C1 at a concrete partial transfer: 3 bytes of a 512-byte
read resume the coroutine with `-EIO`. -/
theorem C1_completion_classification_witness :
    gluster_finish_aiocb 512 3 = -eioErr
    ∧ (qemu_gluster_co_rw 1 true ⟨0, 0, 3⟩).ret
        = gluster_finish_aiocb ((1 * sectorSize : Nat) : Int) 3 :=
  ⟨(C1_completion_classification 512 3 ⟨0, 0, 3⟩ 1 true (by decide) (by decide)).2.2.1
      (by decide) (by decide),
   (C1_completion_classification 512 3 ⟨0, 0, 3⟩ 1 true (by decide) (by decide)).2.2.2⟩

/-- Claim C9: a delivered byte count strictly greater than the expected
size is classified `-EIO`; in particular flush and discard set the
expected size to 0, so every strictly positive byte count resumes their
coroutine with `-EIO`. -/
theorem C9_over_delivery (s r : Int) (env : AioEnv) (nb : Nat)
    (hs : 0 ≤ s) (hr : s < r) (hsub : 0 ≤ env.submit_ret) :
    gluster_finish_aiocb s r = -eioErr
    ∧ (qemu_gluster_co_flush_to_disk env).expected_size = 0
    ∧ (qemu_gluster_co_discard nb env).expected_size = 0
    ∧ (0 < env.async_ret →
        (qemu_gluster_co_flush_to_disk env).ret = -eioErr
        ∧ (qemu_gluster_co_discard nb env).ret = -eioErr) := by
  have hns : ¬ env.submit_ret < 0 := not_lt.2 hsub
  have h1 := (gluster_finish_aiocb_cases s r hs).2.2 (by omega) (by omega)
  refine ⟨h1, ?_, ?_, fun hpos => ?_⟩
  · simp [qemu_gluster_co_flush_to_disk, hns]
  · simp [qemu_gluster_co_discard, hns]
  · have h2 := (gluster_finish_aiocb_cases 0 env.async_ret le_rfl).2.2 hpos (by omega)
    constructor <;> simp [qemu_gluster_co_flush_to_disk, qemu_gluster_co_discard, hns, h2]

/-- Witness for C9: a flush whose callback delivers 7 bytes resumes with
`-EIO`. -/
theorem C9_over_delivery_witness :
    (qemu_gluster_co_flush_to_disk ⟨0, 0, 7⟩).ret = -eioErr :=
  ((C9_over_delivery 0 7 ⟨0, 0, 7⟩ 2 (by decide) (by decide) (by decide)).2.2.2
    (by decide)).1

/-- Claim C3: every coroutine I/O operation allocates its completion
record with the expected size equal to the byte count moved (0 for flush
and discard) and result 0; a failing submission frees the record and
returns `-errno` without yielding; a successful submission yields and, on
resumption, returns the record's classified result and frees the record. -/
theorem C3_submission_protocol (env : AioEnv) (nb : Nat) (wr : Bool) :
    ((qemu_gluster_co_rw nb wr env).expected_size = ((nb * sectorSize : Nat) : Int)
      ∧ (qemu_gluster_co_rw nb wr env).init_result = 0
      ∧ (env.submit_ret < 0 →
          (qemu_gluster_co_rw nb wr env).ret = -(env.submit_errno : Int)
          ∧ (qemu_gluster_co_rw nb wr env).yielded = false
          ∧ (qemu_gluster_co_rw nb wr env).freed = true)
      ∧ (0 ≤ env.submit_ret →
          (qemu_gluster_co_rw nb wr env).yielded = true
          ∧ (qemu_gluster_co_rw nb wr env).freed = true
          ∧ (qemu_gluster_co_rw nb wr env).ret
              = gluster_finish_aiocb ((nb * sectorSize : Nat) : Int) env.async_ret))
    ∧ ((qemu_gluster_co_flush_to_disk env).expected_size = 0
      ∧ (qemu_gluster_co_flush_to_disk env).init_result = 0
      ∧ (env.submit_ret < 0 →
          (qemu_gluster_co_flush_to_disk env).ret = -(env.submit_errno : Int)
          ∧ (qemu_gluster_co_flush_to_disk env).yielded = false
          ∧ (qemu_gluster_co_flush_to_disk env).freed = true)
      ∧ (0 ≤ env.submit_ret →
          (qemu_gluster_co_flush_to_disk env).yielded = true
          ∧ (qemu_gluster_co_flush_to_disk env).freed = true
          ∧ (qemu_gluster_co_flush_to_disk env).ret
              = gluster_finish_aiocb 0 env.async_ret))
    ∧ ((qemu_gluster_co_discard nb env).expected_size = 0
      ∧ (qemu_gluster_co_discard nb env).init_result = 0
      ∧ (env.submit_ret < 0 →
          (qemu_gluster_co_discard nb env).ret = -(env.submit_errno : Int)
          ∧ (qemu_gluster_co_discard nb env).yielded = false
          ∧ (qemu_gluster_co_discard nb env).freed = true)
      ∧ (0 ≤ env.submit_ret →
          (qemu_gluster_co_discard nb env).yielded = true
          ∧ (qemu_gluster_co_discard nb env).freed = true
          ∧ (qemu_gluster_co_discard nb env).ret
              = gluster_finish_aiocb 0 env.async_ret))
    ∧ ((qemu_gluster_co_write_zeroes nb env).expected_size = ((nb * sectorSize : Nat) : Int)
      ∧ (qemu_gluster_co_write_zeroes nb env).init_result = 0
      ∧ (env.submit_ret < 0 →
          (qemu_gluster_co_write_zeroes nb env).ret = -(env.submit_errno : Int)
          ∧ (qemu_gluster_co_write_zeroes nb env).yielded = false
          ∧ (qemu_gluster_co_write_zeroes nb env).freed = true)
      ∧ (0 ≤ env.submit_ret →
          (qemu_gluster_co_write_zeroes nb env).yielded = true
          ∧ (qemu_gluster_co_write_zeroes nb env).freed = true
          ∧ (qemu_gluster_co_write_zeroes nb env).ret
              = gluster_finish_aiocb ((nb * sectorSize : Nat) : Int) env.async_ret)) := by
  by_cases hs : env.submit_ret < 0 <;>
    simp [qemu_gluster_co_rw, qemu_gluster_co_flush_to_disk, qemu_gluster_co_discard,
      qemu_gluster_co_write_zeroes, hs]

/-- Witness for C3: a read of 4 sectors whose submission fails with
`errno = 7` returns `-7` without yielding, and a flush whose submission
succeeds with full delivery yields and returns 0. -/
theorem C3_submission_protocol_witness :
    (qemu_gluster_co_rw 4 false ⟨-1, 7, 0⟩).ret = -7
    ∧ (qemu_gluster_co_rw 4 false ⟨-1, 7, 0⟩).yielded = false
    ∧ (qemu_gluster_co_flush_to_disk ⟨0, 0, 0⟩).ret = 0
    ∧ (qemu_gluster_co_flush_to_disk ⟨0, 0, 0⟩).yielded = true := by
  have h1 := (C3_submission_protocol ⟨-1, 7, 0⟩ 4 false).1.2.2.1 (by decide)
  have h2 := (C3_submission_protocol ⟨0, 0, 0⟩ 4 false).2.1.2.2.2 (by decide)
  refine ⟨by simpa using h1.1, h1.2.1, ?_, h2.1⟩
  rw [h2.2.2]
  decide

/-- `parse_volume_options` only fails with `-EINVAL`. -/
theorem parse_volume_options_error_eq (x : Option (List Char)) (e : Int)
    (h : parse_volume_options x = .error e) : e = -einvalErr := by
  rcases x with _ | cs
  · exact (Except.error.inj h).symm
  · simp only [parse_volume_options] at h
    split_ifs at h
    · exact (Except.error.inj h).symm
    · exact (Except.error.inj h).symm

/-- Claim C6: the path parser strips leading slashes, takes the next
slash-free run as `volname` and the remainder after the separating slashes
as `image` (which may contain further slashes); an empty `volname` or
`image` yields `-EINVAL`; `/testvol/dir/a.img` splits into `testvol` and
`dir/a.img`. -/
theorem C6_path_decomposition (path : List Char) :
    (∀ v img, parse_volume_options (some path) = .ok (v, img) →
      v = (path.dropWhile (fun c => c = '/')).takeWhile (fun c => ¬ c = '/')
      ∧ img = ((path.dropWhile (fun c => c = '/')).dropWhile (fun c => ¬ c = '/')).dropWhile
          (fun c => c = '/')
      ∧ ¬ v = [] ∧ ¬ img = [])
    ∧ (((path.dropWhile (fun c => c = '/')).takeWhile (fun c => ¬ c = '/') = []
        ∨ ((path.dropWhile (fun c => c = '/')).dropWhile (fun c => ¬ c = '/')).dropWhile
            (fun c => c = '/') = [])
      → parse_volume_options (some path) = .error (-einvalErr))
    ∧ parse_volume_options (some ("/testvol/dir/a.img".toList))
        = .ok ("testvol".toList, "dir/a.img".toList) := by
  refine ⟨?_, ?_, by rfl⟩
  · intro v img hok
    simp only [parse_volume_options] at hok
    split_ifs at hok with hp hp2
    obtain ⟨h1, h2⟩ := Prod.mk.inj (Except.ok.inj hok)
    have hq : ¬ path.dropWhile (fun c => c = '/') = [] := by
      intro hq0
      apply hp
      rw [hq0]
      rfl
    have hv := takeWhile_dropWhile_slash_ne_nil path hq
    refine ⟨h1.symm, h2.symm, ?_, ?_⟩
    · rw [← h1]
      exact hv
    · rw [← h2]
      exact hp2
  · intro hbad
    simp only [parse_volume_options]
    by_cases hp : (path.dropWhile (fun c => c = '/')).dropWhile (fun c => ¬ c = '/') = []
    · rw [if_pos hp]
    · rw [if_neg hp]
      have hp2 :
          ((path.dropWhile (fun c => c = '/')).dropWhile (fun c => ¬ c = '/')).dropWhile
            (fun c => c = '/') = [] := by
        rcases hbad with hb | hb
        · exfalso
          have hq : path.dropWhile (fun c => c = '/') = [] := by
            by_contra hq
            exact takeWhile_dropWhile_slash_ne_nil path hq hb
          exact hp (by rw [hq]; rfl)
        · exact hb
      rw [if_pos hp2]

/-- Witness for C6: a path with an empty image component (`/testvol/`) is
rejected with `-EINVAL`. -/
theorem C6_path_decomposition_witness :
    parse_volume_options (some ("/testvol/".toList)) = .error (-einvalErr) :=
  (C6_path_decomposition ("/testvol/".toList)).2.1 (Or.inr rfl)

/-- Claim C4: a `gluster+unix` URI is accepted only with no host, no port
and exactly the single query parameter `socket`, whose value becomes the
stored socket path; a host, a port, zero or extra query parameters, or a
differently named parameter is rejected with `-EINVAL`. -/
theorem C4_unix_uri_validation (uri : URI) (h : uri.scheme = some "gluster+unix") :
    (∀ conf, qemu_gluster_parseuri (some uri) = .ok conf →
      uri.server = none ∧ uri.port = 0
      ∧ ∃ v, uri.query = [("socket", v)] ∧ conf.server = some v)
    ∧ ((¬ uri.server = none ∨ ¬ uri.port = 0 ∨ ¬ uri.query.length = 1
        ∨ (∀ n v, uri.query = [(n, v)] → ¬ n = "socket"))
      → qemu_gluster_parseuri (some uri) = .error (-einvalErr)) := by
  constructor
  · intro conf hc
    rcases hpv : parse_volume_options uri.path with e | ⟨v0, i0⟩
    · simp [qemu_gluster_parseuri, h, hpv] at hc
    rcases huq : uri.query with _ | ⟨⟨n, v⟩, rest⟩
    · simp [qemu_gluster_parseuri, h, hpv, huq] at hc
    rcases rest with _ | ⟨b, rest2⟩
    · by_cases hs1 : uri.server = none
      · by_cases hp1 : uri.port = 0
        · by_cases hn : n = "socket"
          · subst hn
            refine ⟨hs1, hp1, v, rfl, ?_⟩
            simp [qemu_gluster_parseuri, h, hpv, huq, hs1, hp1] at hc
            rw [← hc]
          · simp [qemu_gluster_parseuri, h, hpv, huq, hs1, hp1, hn] at hc
        · simp [qemu_gluster_parseuri, h, hpv, huq, hp1] at hc
      · simp [qemu_gluster_parseuri, h, hpv, huq, hs1] at hc
    · simp [qemu_gluster_parseuri, h, hpv, huq] at hc
  · intro hrej
    rcases hpv : parse_volume_options uri.path with e | ⟨v0, i0⟩
    · have he := parse_volume_options_error_eq _ _ hpv
      subst he
      simp [qemu_gluster_parseuri, h, hpv]
    rcases huq : uri.query with _ | ⟨⟨n, v⟩, rest⟩
    · simp [qemu_gluster_parseuri, h, hpv, huq]
    rcases rest with _ | ⟨b, rest2⟩
    · rcases hrej with hr | hr | hr | hr
      · simp [qemu_gluster_parseuri, h, hpv, huq, hr]
      · simp [qemu_gluster_parseuri, h, hpv, huq, hr]
      · exact absurd (by simp [huq]) hr
      · have hn := hr n v huq
        by_cases hs1 : uri.server = none
        · by_cases hp1 : uri.port = 0
          · simp [qemu_gluster_parseuri, h, hpv, huq, hs1, hp1, hn]
          · simp [qemu_gluster_parseuri, h, hpv, huq, hp1]
        · simp [qemu_gluster_parseuri, h, hpv, huq, hs1]
    · simp [qemu_gluster_parseuri, h, hpv, huq]

/-- Witness for C4: the canonical UNIX URI is accepted and its `socket`
value becomes the stored socket path. -/
theorem C4_unix_uri_validation_witness :
    (none : Option String) = none ∧ (0 : Int) = 0
    ∧ ∃ v, ([("socket", "/tmp/glusterd.socket")] : List (String × String)) = [("socket", v)]
      ∧ ({ transport := some "unix", server := some "/tmp/glusterd.socket", port := 0,
           volname := some ("testvol".toList), image := some ("dir/a.img".toList) } :
          GlusterConf).server = some v :=
  (C4_unix_uri_validation
    ⟨some "gluster+unix", none, 0, some ("/testvol/dir/a.img".toList),
      [("socket", "/tmp/glusterd.socket")]⟩ rfl).1
    { transport := some "unix", server := some "/tmp/glusterd.socket", port := 0,
      volname := some ("testvol".toList), image := some ("dir/a.img".toList) } rfl

/-- Claim C7: for the non-UNIX schemes, any query parameter is rejected
with `-EINVAL`; on acceptance the stored server is the authority's host,
defaulting to `localhost`, and the stored port is the authority's port
(0 when absent). -/
theorem C7_nonunix_uri (uri : URI)
    (h : uri.scheme = none ∨ uri.scheme = some "gluster"
      ∨ uri.scheme = some "gluster+tcp" ∨ uri.scheme = some "gluster+rdma") :
    (¬ uri.query = [] → qemu_gluster_parseuri (some uri) = .error (-einvalErr))
    ∧ (∀ conf, qemu_gluster_parseuri (some uri) = .ok conf →
        conf.server = some (uri.server.getD "localhost") ∧ conf.port = uri.port) := by
  rcases h with h | h | h | h <;>
  · constructor
    · intro hq
      rcases hpv : parse_volume_options uri.path with e | ⟨v0, i0⟩
      · have he := parse_volume_options_error_eq _ _ hpv
        subst he
        simp [qemu_gluster_parseuri, h, hpv]
      · rcases huq : uri.query with _ | ⟨qh, qt⟩
        · exact absurd huq hq
        · simp [qemu_gluster_parseuri, h, hpv, huq]
    · intro conf hc
      rcases hpv : parse_volume_options uri.path with e | ⟨v0, i0⟩
      · simp [qemu_gluster_parseuri, h, hpv] at hc
      · rcases huq : uri.query with _ | ⟨qh, qt⟩
        · simp [qemu_gluster_parseuri, h, hpv, huq] at hc
          rw [← hc]
          exact ⟨rfl, rfl⟩
        · simp [qemu_gluster_parseuri, h, hpv, huq] at hc

/-- Witness for C7: `gluster://1.2.3.4:24007/testvol/a.img` is accepted
with server `1.2.3.4` and port 24007. -/
theorem C7_nonunix_uri_witness :
    ({ transport := some "tcp", server := some "1.2.3.4", port := 24007,
       volname := some ("testvol".toList), image := some ("a.img".toList) } :
      GlusterConf).server
      = some ((some "1.2.3.4" : Option String).getD "localhost")
    ∧ ({ transport := some "tcp", server := some "1.2.3.4", port := 24007,
         volname := some ("testvol".toList), image := some ("a.img".toList) } :
        GlusterConf).port = (24007 : Int) :=
  (C7_nonunix_uri
    ⟨some "gluster", some "1.2.3.4", 24007, some ("/testvol/a.img".toList), []⟩
    (Or.inr (Or.inl rfl))).2
    { transport := some "tcp", server := some "1.2.3.4", port := 24007,
      volname := some ("testvol".toList), image := some ("a.img".toList) } rfl

/-- The option scan fails as soon as it reaches a `preallocation` entry
whose value is neither NULL, `off`, nor `full`-with-zero-fill-support. -/
theorem scanOpts_bad (cfg : Bool) (s : String) (h1 : ¬ s = "off")
    (h2 : ¬ (s = "full" ∧ cfg = true)) :
    ∀ opts t p, CreateOpt.prealloc (some s) ∈ opts → scanOpts cfg opts t p = .error () := by
  intro opts
  induction opts with
  | nil =>
    intro t p hmem
    cases hmem
  | cons a rest ih =>
    intro t p hmem
    cases a with
    | size n =>
      have hm : CreateOpt.prealloc (some s) ∈ rest := by
        rcases List.mem_cons.mp hmem with heq | hm
        · exact absurd heq (by simp)
        · exact hm
      simpa [scanOpts] using ih _ _ hm
    | other =>
      have hm : CreateOpt.prealloc (some s) ∈ rest := by
        rcases List.mem_cons.mp hmem with heq | hm
        · exact absurd heq (by simp)
        · exact hm
      simpa [scanOpts] using ih _ _ hm
    | prealloc v =>
      rcases List.mem_cons.mp hmem with heq | hm
      · have hv : some s = v := by
          injection heq
        subst hv
        simp [scanOpts, h1, gluster_supports_zerofill]
        intro hfull hcfg
        exact absurd ⟨hfull, hcfg⟩ h2
      · cases v with
        | none => simpa [scanOpts] using ih _ _ hm
        | some s2 =>
          by_cases ho : s2 = "off"
          · simpa [scanOpts, ho] using ih _ _ hm
          · by_cases hf : s2 = "full" ∧ gluster_supports_zerofill cfg = true
            · simpa [scanOpts, ho, hf] using ih _ _ hm
            · simp [scanOpts, ho, hf]

/-- The option scan never sets the `prealloc` flag when every
`preallocation` entry is NULL or `off`. -/
theorem scanOpts_alloff (cfg : Bool) :
    ∀ opts t, (∀ v, CreateOpt.prealloc v ∈ opts → v = none ∨ v = some "off") →
      ∃ t2, scanOpts cfg opts t false = .ok (t2, false) := by
  intro opts
  induction opts with
  | nil =>
    intro t _
    exact ⟨t, rfl⟩
  | cons a rest ih =>
    intro t h
    cases a with
    | size n =>
      simpa [scanOpts] using ih (n / sectorSize) (fun v hv => h v (List.mem_cons_of_mem _ hv))
    | other =>
      simpa [scanOpts] using ih t (fun v hv => h v (List.mem_cons_of_mem _ hv))
    | prealloc v =>
      rcases h v (List.mem_cons_self _ _) with hv | hv <;> subst hv
      · simpa [scanOpts] using ih t (fun v hv => h v (List.mem_cons_of_mem _ hv))
      · simpa [scanOpts] using ih t (fun v hv => h v (List.mem_cons_of_mem _ hv))

/-- Claim C8: a create call whose `preallocation` value is `full` without
compiled-in zero-fill support, or anything other than `off` and `full`,
returns `-EINVAL` with a diagnostic; a NULL or `off` preallocation (or
none at all) proceeds without any zero-fill call. -/
theorem C8_prealloc_validation (cfg : Bool) (cenv : CreateEnv) (opts : List CreateOpt)
    (hinit : cenv.init_ok = true) :
    ((∃ s, CreateOpt.prealloc (some s) ∈ opts ∧ ¬ s = "off" ∧ ¬ (s = "full" ∧ cfg = true)) →
      (qemu_gluster_create cfg cenv opts).ret = -einvalErr
      ∧ (qemu_gluster_create cfg cenv opts).diag = true)
    ∧ ((∀ v, CreateOpt.prealloc v ∈ opts → v = none ∨ v = some "off") →
      (qemu_gluster_create cfg cenv opts).diag = false
      ∧ (qemu_gluster_create cfg cenv opts).zerofill_arg = none) := by
  constructor
  · rintro ⟨s, hmem, h1, h2⟩
    have hscan := scanOpts_bad cfg s h1 h2 opts 0 false hmem
    simp [qemu_gluster_create, hinit, hscan]
  · intro hall
    obtain ⟨t2, hscan⟩ := scanOpts_alloff cfg opts 0 hall
    by_cases hc : cenv.creat_ok = false
    · simp [qemu_gluster_create, hinit, hscan, hc]
    · simp only [Bool.not_eq_false] at hc
      simp [qemu_gluster_create, hinit, hscan, hc]

/-- Witness for C8: `preallocation=full` without zero-fill support is
rejected with `-EINVAL` and a diagnostic. -/
theorem C8_prealloc_validation_witness :
    (qemu_gluster_create false ⟨true, true, 1, true, 1, true, 1, true, 1⟩
      [CreateOpt.prealloc (some "full")]).ret = -einvalErr
    ∧ (qemu_gluster_create false ⟨true, true, 1, true, 1, true, 1, true, 1⟩
      [CreateOpt.prealloc (some "full")]).diag = true :=
  (C8_prealloc_validation false ⟨true, true, 1, true, 1, true, 1, true, 1⟩
    [CreateOpt.prealloc (some "full")] rfl).1
    ⟨"full", by decide, by decide, by decide⟩

/-- Claim C10: a create call with a `size` of `n` bytes keeps
`floor(n / 512)` sectors internally, truncates the file to
`floor(n / 512) * 512` bytes and zero-fills the same range under full
preallocation, silently rounding a size that is not a multiple of 512
down to the next-lower sector boundary. -/
theorem C10_size_rounding (cenv : CreateEnv) (n : Nat)
    (h1 : cenv.init_ok = true) (h2 : cenv.creat_ok = true) (h3 : cenv.ftruncate_ok = true) :
    scanOpts true [CreateOpt.size n] 0 false = .ok (n / sectorSize, false)
    ∧ (qemu_gluster_create true cenv [CreateOpt.size n]).truncate_arg
        = some (n / sectorSize * sectorSize)
    ∧ (qemu_gluster_create true cenv
        [CreateOpt.size n, CreateOpt.prealloc (some "full")]).zerofill_arg
        = some (0, n / sectorSize * sectorSize)
    ∧ n / sectorSize * sectorSize ≤ n
    ∧ (¬ n % sectorSize = 0 → n / sectorSize * sectorSize < n) := by
  refine ⟨rfl, ?_, ?_, Nat.div_mul_le_self n sectorSize, ?_⟩
  · simp [qemu_gluster_create, h1, h2, scanOpts]
  · simp [qemu_gluster_create, h1, h2, h3, scanOpts, gluster_supports_zerofill]
  · intro h
    simp only [sectorSize] at h ⊢
    omega

/-- Witness for C10: `size=1000` truncates to 512 bytes. -/
theorem C10_size_rounding_witness :
    (qemu_gluster_create true ⟨true, true, 1, true, 1, true, 1, true, 1⟩
      [CreateOpt.size 1000]).truncate_arg = some 512 := by
  have h := (C10_size_rounding ⟨true, true, 1, true, 1, true, 1, true, 1⟩ 1000
    rfl rfl rfl).2.1
  simpa [sectorSize] using h

/-- Claim C2 (amended): on every failing multi-step operation all
partially acquired handles are released before returning; in the session
bootstrap the `errno` of the failing step is preserved across the
volume-handle finalization; in create the first failing step's error is
the one returned whenever the final file close succeeds, while a failing
close replaces it with the close error. -/
theorem C2_cleanup_error_amended (u : Option URI) (genv : GlfsEnv) (e0 : Nat)
    (cfg : Bool) (cenv : CreateEnv) (opts : List CreateOpt) :
    (∀ c, qemu_gluster_parseuri u = .ok c → genv.glfs_new_ok = true →
      ((genv.set_server_ok = false →
        qemu_gluster_init u genv e0
          = { glfs := false, errno := genv.set_server_errno, fini_called := true,
              diag := false })
      ∧ (genv.set_server_ok = true → genv.set_logging_ok = false →
        qemu_gluster_init u genv e0
          = { glfs := false, errno := genv.set_logging_errno, fini_called := true,
              diag := false })
      ∧ (genv.set_server_ok = true → genv.set_logging_ok = true →
          genv.glfs_init_ok = false →
        qemu_gluster_init u genv e0
          = { glfs := false, errno := genv.glfs_init_errno, fini_called := true,
              diag := true })))
    ∧ (cenv.close_ok = true →
      (qemu_gluster_create cfg cenv opts).ret = createFirstError cfg cenv opts)
    ∧ ((qemu_gluster_create cfg cenv opts).glfs_finied = cenv.init_ok)
    ∧ (∀ tp, cenv.init_ok = true → scanOpts cfg opts 0 false = .ok tp →
        cenv.creat_ok = true →
      (qemu_gluster_create cfg cenv opts).fd_closed = true)
    ∧ (∀ tp, cenv.init_ok = true → scanOpts cfg opts 0 false = .ok tp →
        cenv.creat_ok = true → cenv.close_ok = false →
      (qemu_gluster_create cfg cenv opts).ret = -(cenv.close_errno : Int)) := by
  refine ⟨?_, ?_, ?_, ?_, ?_⟩
  · intro c hp hnew
    refine ⟨fun hss => ?_, fun hss hsl => ?_, fun hss hsl hgi => ?_⟩ <;>
      simp [qemu_gluster_init, hp, hnew, hss, init_out, glfs_fini_errno] <;>
      simp [hsl]
    simp [hgi]
  · intro hcl
    by_cases hi : cenv.init_ok = false
    · simp [qemu_gluster_create, createFirstError, hi]
    · rcases hscan : scanOpts cfg opts 0 false with e | ⟨t, p⟩
      · simp [qemu_gluster_create, createFirstError, hi, hscan]
      · by_cases hcr : cenv.creat_ok = false
        · simp [qemu_gluster_create, createFirstError, hi, hscan, hcr]
        · by_cases hf : cenv.ftruncate_ok = false
          · simp [qemu_gluster_create, createFirstError, hi, hscan, hcr, hf, hcl]
          · simp only [Bool.not_eq_false] at hf
            cases p
            · simp [qemu_gluster_create, createFirstError, hi, hscan, hcr, hf, hcl]
            · cases cfg
              · simp [qemu_gluster_create, createFirstError, hi, hscan, hcr, hf, hcl,
                  gluster_supports_zerofill]
              · by_cases hz : cenv.zerofill_ok = false
                · simp [qemu_gluster_create, createFirstError, hi, hscan, hcr, hf, hcl,
                    hz, gluster_supports_zerofill]
                · simp only [Bool.not_eq_false] at hz
                  simp [qemu_gluster_create, createFirstError, hi, hscan, hcr, hf, hcl,
                    hz, gluster_supports_zerofill]
  · by_cases hi : cenv.init_ok = false
    · simp [qemu_gluster_create, hi]
    · simp only [Bool.not_eq_false] at hi
      rcases hscan : scanOpts cfg opts 0 false with e | ⟨t, p⟩
      · simp [qemu_gluster_create, hi, hscan]
      · by_cases hcr : cenv.creat_ok = false
        · simp [qemu_gluster_create, hi, hscan, hcr]
        · simp [qemu_gluster_create, hi, hscan, hcr]
  · rintro ⟨t, p⟩ hi hscan hcr
    simp [qemu_gluster_create, hi, hscan, hcr]
  · rintro ⟨t, p⟩ hi hscan hcr hcl
    simp [qemu_gluster_create, hi, hscan, hcr, hcl]

/-- Counterexample for C2 as stated: with `glfs_ftruncate` failing with
`errno = 28` (`ENOSPC`) and the cleanup `glfs_close` failing with
`errno = 5` (`EIO`), create returns `-5`, not the triggering `-28`. -/
theorem C2_cleanup_error_counterexample :
    (qemu_gluster_create false
      { init_ok := true, creat_ok := true, creat_errno := 0,
        ftruncate_ok := false, ftruncate_errno := 28,
        zerofill_ok := true, zerofill_errno := 0,
        close_ok := false, close_errno := 5 } []).ret = -5
    ∧ createFirstError false
      { init_ok := true, creat_ok := true, creat_errno := 0,
        ftruncate_ok := false, ftruncate_errno := 28,
        zerofill_ok := true, zerofill_errno := 0,
        close_ok := false, close_errno := 5 } [] = -28
    ∧ ¬ (-5 : Int) = -28 := by
  decide

/-- Witness for the amended C2: with a failing truncate but a successful
close, create returns exactly the first failing step's error. -/
theorem C2_cleanup_error_amended_witness :
    (qemu_gluster_create false
      { init_ok := true, creat_ok := true, creat_errno := 0,
        ftruncate_ok := false, ftruncate_errno := 28,
        zerofill_ok := true, zerofill_errno := 0,
        close_ok := true, close_errno := 5 } []).ret
      = createFirstError false
      { init_ok := true, creat_ok := true, creat_errno := 0,
        ftruncate_ok := false, ftruncate_errno := 28,
        zerofill_ok := true, zerofill_errno := 0,
        close_ok := true, close_errno := 5 } [] :=
  (C2_cleanup_error_amended none ⟨true, 0, true, 0, true, 0, true, 0, 0⟩ 0 false
    { init_ok := true, creat_ok := true, creat_errno := 0,
      ftruncate_ok := false, ftruncate_errno := 28,
      zerofill_ok := true, zerofill_errno := 0,
      close_ok := true, close_errno := 5 } []).2.1 rfl

/-- Claim C5: after a successful open both handles are live in the
instance; after any failure path no live handle is retained and the
returned value is the negative error of the failing step. -/
theorem C5_open_all_or_nothing (u : Option URI) (genv : GlfsEnv) (e0 : Nat) (env : OpenEnv)
    (h1 : (qemu_gluster_init u genv e0).glfs = false →
      0 < (qemu_gluster_init u genv e0).errno)
    (h2 : 0 < env.open_errno) :
    ((qemu_gluster_open u genv e0 env).1 = 0 →
      (qemu_gluster_open u genv e0 env).2.glfs = .live
      ∧ (qemu_gluster_open u genv e0 env).2.fd = .live)
    ∧ (¬ (qemu_gluster_open u genv e0 env).1 = 0 →
      ¬ (qemu_gluster_open u genv e0 env).2.glfs = .live
      ∧ ¬ (qemu_gluster_open u genv e0 env).2.fd = .live
      ∧ (qemu_gluster_open u genv e0 env).1 < 0)
    ∧ (env.absorb_ok = false → (qemu_gluster_open u genv e0 env).1 = -einvalErr)
    ∧ (env.absorb_ok = true → (qemu_gluster_init u genv e0).glfs = false →
      (qemu_gluster_open u genv e0 env).1 = -((qemu_gluster_init u genv e0).errno : Int))
    ∧ (env.absorb_ok = true → (qemu_gluster_init u genv e0).glfs = true →
      env.open_ok = false →
      (qemu_gluster_open u genv e0 env).1 = -((env.open_errno : Int))) := by
  by_cases ha : env.absorb_ok = false
  · have hne : ¬ (-einvalErr = (0 : Int)) := by decide
    simp [qemu_gluster_open, ha, open_out, hne, einvalErr]
  · simp only [Bool.not_eq_false] at ha
    by_cases hi : (qemu_gluster_init u genv e0).glfs = false
    · have herr := h1 hi
      have hne : ¬ (-((qemu_gluster_init u genv e0).errno : Int) = 0) := by omega
      simp [qemu_gluster_open, ha, hi, open_out, hne]
      omega
    · simp only [Bool.not_eq_false] at hi
      by_cases ho : env.open_ok = false
      · have hne : ¬ (-((env.open_errno : Int)) = 0) := by omega
        simp [qemu_gluster_open, ha, hi, ho, open_out, hne]
        omega
      · simp only [Bool.not_eq_false] at ho
        simp [qemu_gluster_open, ha, hi, ho, open_out]

/-- Witness for C5: an open whose URI fails to parse returns `-EINVAL`
(= `-22`, the bootstrap errno) and retains no live handle. -/
theorem C5_open_all_or_nothing_witness :
    (qemu_gluster_open none ⟨true, 1, true, 1, true, 1, true, 1, 9⟩ 0 ⟨true, true, 7⟩).1 = -22
    ∧ ¬ (qemu_gluster_open none ⟨true, 1, true, 1, true, 1, true, 1, 9⟩ 0
        ⟨true, true, 7⟩).2.glfs = HStat.live := by
  have h := C5_open_all_or_nothing none ⟨true, 1, true, 1, true, 1, true, 1, 9⟩ 0
    ⟨true, true, 7⟩ (fun _ => by decide) (by decide)
  refine ⟨?_, (h.2.1 (by decide)).1⟩
  have h4 := h.2.2.2.1 rfl (by decide)
  rw [h4]
  decide

end Gluster
